import Mathlib

/-!
Shallow embedding of the resilience / rate-limiting core of the
LinkedIn-scraper repository, together with theorems checking the
natural-language specification against it.

Sources embedded:
- `src/utils/exceptions.py` : the exception class hierarchy
- `src/utils/retry.py`      : `exponential_backoff`, `retry`, `CircuitBreaker`,
                              `with_circuit_breaker`
- `src/utils/rate_limiter.py` : `RateLimiter`, `RequestThrottler`,
                              `SessionManager`, `RateLimitingManager`

Times (`time.time()` values) and delays are modelled as rationals `ℚ`.
Random draws (`random.uniform`, `random.randint`) are modelled as explicit
parameters: a theorem quantifying over the parameter covers every draw.
-/

/-! ### Exception hierarchy (`src/utils/exceptions.py`) -/

/-- Exception classes that appear in the embedded code, plus the built-in
Python exceptions the retry defaults mention and a generic stand-in
`OtherException` for any other `Exception` subclass. -/
inductive ExcType where
  | LinkedInScraperError
  | NetworkError
  | RateLimitError
  | CaptchaDetectedError
  | BrowserError
  | MaxRetriesExceededError
  | ConnectionError
  | TimeoutError
  | KeyboardInterrupt
  | SystemExit
  | OtherException
deriving DecidableEq

/-- The inheritance chain of each exception class, from the class itself up
(the common Python bases `Exception` / `BaseException` are left implicit).
`CaptchaDetectedError` extends `RateLimitError`; the scraper errors extend
`LinkedInScraperError`; the rest are unrelated built-ins. -/
def ExcType.ancestors : ExcType → List ExcType
  | .LinkedInScraperError => [.LinkedInScraperError]
  | .NetworkError => [.NetworkError, .LinkedInScraperError]
  | .RateLimitError => [.RateLimitError, .LinkedInScraperError]
  | .CaptchaDetectedError => [.CaptchaDetectedError, .RateLimitError, .LinkedInScraperError]
  | .BrowserError => [.BrowserError, .LinkedInScraperError]
  | .MaxRetriesExceededError => [.MaxRetriesExceededError, .LinkedInScraperError]
  | .ConnectionError => [.ConnectionError]
  | .TimeoutError => [.TimeoutError]
  | .KeyboardInterrupt => [.KeyboardInterrupt]
  | .SystemExit => [.SystemExit]
  | .OtherException => [.OtherException]

/-- `isSubclass e c` models Python `isinstance(e_instance, c)`:
`e` is `c` itself or inherits from it. -/
def ExcType.isSubclass (e c : ExcType) : Bool :=
  e.ancestors.contains c

/-! ### `exponential_backoff` (`src/utils/retry.py`, lines 20-44)

The inner `_calculate_delay`.  The call `random.uniform(-jitter_range,
jitter_range)` (with `jitter_range = delay * 0.25`) is modelled by the
explicit parameter `u`; a faithful draw satisfies `|u| ≤ delay * (1/4)`. -/

/-- `_calculate_delay(attempt)` from `exponential_backoff`:
cap `base_delay * exponential_base ^ attempt` at `max_delay`, add the
jitter draw `u` when `jitter` is set, then floor at `0.1`. -/
def calculate_delay (base_delay max_delay exponential_base : ℚ)
    (jitter : Bool) (u : ℚ) (attempt : ℕ) : ℚ :=
  let delay := min (base_delay * exponential_base ^ attempt) max_delay
  let delay := if jitter then delay + u else delay
  max delay (1/10)

/-! ### `retry` (`src/utils/retry.py`, lines 47-148)

The decorator's wrapper loop, with the default classification
`retry_on = (NetworkError, RateLimitError, BrowserError, ConnectionError,
TimeoutError)` and `stop_on = (KeyboardInterrupt, SystemExit)`.
The wrapped operation is modelled as a function from the attempt index to
an outcome; the wrapper's `time.sleep(delay)` calls are recorded in a list
so delays can be reasoned about. -/

/-- Default `retry_on` tuple of the `retry` decorator. -/
def retry_on_default : List ExcType :=
  [.NetworkError, .RateLimitError, .BrowserError, .ConnectionError, .TimeoutError]

/-- Default `stop_on` tuple of the `retry` decorator. -/
def stop_on_default : List ExcType :=
  [.KeyboardInterrupt, .SystemExit]

/-- Which `except` clause of the wrapper catches exception `e`:
the `except stop_on` clause is tried first, then `except retry_on`,
then the bare `except Exception` clause (every type modelled here other
than `KeyboardInterrupt`/`SystemExit` is an `Exception` subclass). -/
inductive ExcClass where
  | stop
  | retryable
  | other
deriving DecidableEq

/-- Classify an exception by the wrapper's `except` clauses under the
default `retry_on` / `stop_on`. -/
def classifyExc (e : ExcType) : ExcClass :=
  if stop_on_default.any (fun c => e.isSubclass c) then .stop
  else if retry_on_default.any (fun c => e.isSubclass c) then .retryable
  else .other

/-- One attempt of the wrapped operation either returns or raises. -/
inductive AttemptOutcome where
  | succeeds
  | raises (e : ExcType)
deriving DecidableEq

/-- Result of running the whole `retry` wrapper:
normal return, immediate re-raise of a `stop_on` exception, or the
terminal `MaxRetriesExceededError(attempts, last_error)` (the
`reraise_as` variant carries the same two fields). -/
inductive RetryResult where
  | ok
  | stopped (e : ExcType)
  | exhausted (attempts : ℕ) (last_error : Option ExcType)
deriving DecidableEq

/-- Observable trace of a `retry` wrapper execution: its result, how many
times the wrapped operation was invoked, and the sequence of slept
delays. -/
structure RetryTrace where
  result : RetryResult
  calls : ℕ
  sleeps : List ℚ
deriving DecidableEq

/-- The wrapper's `for attempt in range(max_attempts)` loop.
`remaining` counts the iterations the `range` still has; `attempt` is the
current index and `last` the `last_exception` variable.  Retryable and
unclassified exceptions on the final attempt `break` out of the loop;
non-final ones sleep `delay_func(attempt)` (halved for unclassified
exceptions) and continue. -/
def retry_loop (max_attempts : ℕ) (delay_func : ℕ → ℚ)
    (op : ℕ → AttemptOutcome) : ℕ → Option ExcType → ℕ → RetryTrace
  | _attempt, last, 0 => ⟨.exhausted max_attempts last, 0, []⟩
  | attempt, _last, remaining + 1 =>
    match op attempt with
    | .succeeds => ⟨.ok, 1, []⟩
    | .raises e =>
      match classifyExc e with
      | .stop => ⟨.stopped e, 1, []⟩
      | .retryable =>
        if attempt = max_attempts - 1 then
          ⟨.exhausted max_attempts (some e), 1, []⟩
        else
          let rest := retry_loop max_attempts delay_func op (attempt + 1) (some e) remaining
          ⟨rest.result, rest.calls + 1, delay_func attempt :: rest.sleeps⟩
      | .other =>
        if attempt = max_attempts - 1 then
          ⟨.exhausted max_attempts (some e), 1, []⟩
        else
          let rest := retry_loop max_attempts delay_func op (attempt + 1) (some e) remaining
          ⟨rest.result, rest.calls + 1, delay_func attempt * (1/2) :: rest.sleeps⟩

/-- Run the `retry`-wrapped operation from attempt 0. -/
def retry_run (max_attempts : ℕ) (delay_func : ℕ → ℚ)
    (op : ℕ → AttemptOutcome) : RetryTrace :=
  retry_loop max_attempts delay_func op 0 none max_attempts

/-! ### `CircuitBreaker` (`src/utils/retry.py`, lines 151-231) -/

/-- The `self.state` string: `'CLOSED'`, `'OPEN'`, `'HALF_OPEN'`. -/
inductive CBState where
  | closed
  | opened
  | half_open
deriving DecidableEq

/-- `CircuitBreaker` instance state. -/
structure CircuitBreaker where
  failure_threshold : ℕ
  recovery_timeout : ℚ
  expected_exception : ExcType
  failure_count : ℕ
  last_failure_time : Option ℚ
  state : CBState
deriving DecidableEq

/-- A fresh breaker as built by `CircuitBreaker.__init__`. -/
def CircuitBreaker.mk0 (failure_threshold : ℕ) (recovery_timeout : ℚ)
    (expected_exception : ExcType) : CircuitBreaker :=
  ⟨failure_threshold, recovery_timeout, expected_exception, 0, none, .closed⟩

/-- `_should_attempt_reset`. -/
def CircuitBreaker.should_attempt_reset (b : CircuitBreaker) (now : ℚ) : Bool :=
  match b.last_failure_time with
  | none => true
  | some t => decide (b.recovery_timeout ≤ now - t)

/-- `_on_success`: reset the counter and close the circuit. -/
def CircuitBreaker.on_success (b : CircuitBreaker) : CircuitBreaker :=
  { b with failure_count := 0, state := .closed }

/-- `_on_failure`: bump the counter, stamp the failure time, and open the
circuit once the threshold is reached. -/
def CircuitBreaker.on_failure (b : CircuitBreaker) (now : ℚ) : CircuitBreaker :=
  let fc := b.failure_count + 1
  { b with failure_count := fc, last_failure_time := some now,
           state := if b.failure_threshold ≤ fc then .opened else b.state }

/-- The exception raised by the wrapper when the circuit is open
(`raise LinkedInScraperError(...)`, line 174 of `retry.py`). -/
def circuit_open_error : ExcType := .LinkedInScraperError

/-- The `expected_exception` that `with_circuit_breaker` configures
(line 228 of `retry.py`). -/
def with_circuit_breaker_expected : ExcType := .LinkedInScraperError

/-- Observable outcome of one call through the breaker's wrapper. -/
inductive CBOutcome where
  | rejected (e : ExcType)
  | returned
  | raised (e : ExcType)
deriving DecidableEq

/-- One call through the breaker's wrapper at time `now` where the wrapped
operation behaves as `op`.  If the state is OPEN and the reset check
fails, the call is rejected without invoking the operation; otherwise the
operation runs, and only failures matching `expected_exception` are
counted (others propagate with no state change). -/
def CircuitBreaker.call (b : CircuitBreaker) (now : ℚ) (op : AttemptOutcome) :
    CBOutcome × CircuitBreaker :=
  let entry : Option CircuitBreaker :=
    match b.state with
    | .opened =>
      if b.should_attempt_reset now then some { b with state := .half_open }
      else none
    | _ => some b
  match entry with
  | none => (.rejected circuit_open_error, b)
  | some b1 =>
    match op with
    | .succeeds => (.returned, b1.on_success)
    | .raises e =>
      if e.isSubclass b1.expected_exception then (.raised e, b1.on_failure now)
      else (.raised e, b1)

/-- A run of calls whose wrapped operation raises `e` each time, at the
given sequence of call times. -/
def CircuitBreaker.fail_run (b : CircuitBreaker) (e : ExcType) (ts : List ℚ) :
    CircuitBreaker :=
  ts.foldl (fun b t => (b.call t (.raises e)).2) b

/-! ### `RateLimiter` (`src/utils/rate_limiter.py`, lines 20-144) -/

/-- `RateLimitConfig` dataclass with its defaults. -/
structure RateLimitConfig where
  requests_per_minute : ℕ := 10
  requests_per_hour : ℕ := 100
  burst_limit : ℕ := 3
  cooldown_period : ℚ := 300
  jitter_range_lo : ℚ := 1/2
  jitter_range_hi : ℚ := 2
  progressive_delay : Bool := true
deriving DecidableEq

/-- `RateLimiter` instance state.  The two deques hold timestamps in append
order; `cooldown_until` starts as `None`. -/
structure RateLimiter where
  config : RateLimitConfig
  request_times : List ℚ := []
  hourly_requests : List ℚ := []
  consecutive_requests : ℕ := 0
  last_request_time : ℚ := 0
  cooldown_until : Option ℚ := none
deriving DecidableEq

/-- A fresh limiter as built by `RateLimiter.__init__`. -/
def RateLimiter.mk0 (config : RateLimitConfig) : RateLimiter :=
  { config := config }

/-- The check `if self.cooldown_until and now < self.cooldown_until`
(a set deadline is a positive float, hence truthy). -/
def RateLimiter.cooldown_active (s : RateLimiter) (now : ℚ) : Bool :=
  match s.cooldown_until with
  | none => false
  | some cu => decide (now < cu)

/-- `_clean_old_entries`: pop entries older than 60 s / 3600 s off the
front of the respective deque. -/
def RateLimiter.clean_old_entries (s : RateLimiter) (now : ℚ) : RateLimiter :=
  { s with
    request_times := s.request_times.dropWhile (fun t => decide (60 < now - t)),
    hourly_requests := s.hourly_requests.dropWhile (fun t => decide (3600 < now - t)) }

/-- `can_make_request`: cooldown check first, then (after pruning) the
per-minute count, the per-hour count, and the burst check
`consecutive_requests >= burst_limit and now - last_request_time < 60`. -/
def RateLimiter.can_make_request (s : RateLimiter) (now : ℚ) : Bool :=
  if s.cooldown_active now then false
  else
    let s := s.clean_old_entries now
    if s.config.requests_per_minute ≤ s.request_times.length then false
    else if s.config.requests_per_hour ≤ s.hourly_requests.length then false
    else if s.config.burst_limit ≤ s.consecutive_requests ∧ now - s.last_request_time < 60 then false
    else true

/-- `record_request`: append `now` to both windows, extend the consecutive
run when the previous request was less than 10 s ago (else restart it at
1), and stamp `last_request_time`. -/
def RateLimiter.record_request (s : RateLimiter) (now : ℚ) : RateLimiter :=
  { s with
    request_times := s.request_times ++ [now],
    hourly_requests := s.hourly_requests ++ [now],
    consecutive_requests :=
      if now - s.last_request_time < 10 then s.consecutive_requests + 1 else 1,
    last_request_time := now }

/-- `trigger_cooldown`: set the deadline `now + duration`, defaulting the
duration to `config.cooldown_period` (Python falls back on the config
value via `duration or ...`, so `None` — and a zero duration — both pick
the config default; the `none` case models the default call). -/
def RateLimiter.trigger_cooldown (s : RateLimiter) (now : ℚ)
    (duration : Option ℚ) : RateLimiter :=
  { s with cooldown_until := some (now + duration.getD s.config.cooldown_period) }

/-- `_calculate_wait_time`: collect the remaining cooldown, the time until
the oldest per-minute entry leaves its window, and the time until the
burst window clears; return the maximum, or 0 when no constraint is
active.  (The per-minute entries were pruned by the immediately preceding
`can_make_request` call whenever that call got past the cooldown check.) -/
def RateLimiter.calculate_wait_time (s : RateLimiter) (now : ℚ) : ℚ :=
  let wt_cooldown : List ℚ :=
    match s.cooldown_until with
    | some cu => if now < cu then [cu - now] else []
    | none => []
  let wt_minute : List ℚ :=
    if s.config.requests_per_minute ≤ s.request_times.length then
      match s.request_times.head? with
      | some oldest => [60 - (now - oldest)]
      | none => []
    else []
  let wt_burst : List ℚ :=
    if s.config.burst_limit ≤ s.consecutive_requests ∧ now - s.last_request_time < 60 then
      [60 - (now - s.last_request_time)]
    else []
  match wt_cooldown ++ wt_minute ++ wt_burst with
  | [] => 0
  | w :: ws => ws.foldl max w

/-! ### Spec-side admission predicate (for the refinement comparison in C1)

Modelled from the spec's words, NOT from the source: §4.4 requires
"per-minute count < limit, per-hour count < limit, and burst control
(if the last `burst_limit` calls occurred within the trailing 60s,
admission is denied)", with an active cooldown overriding everything.
The recorded call history available in the limiter state is the
hour-window deque. -/

/-- Admission as the spec sentence describes it: deny during cooldown;
otherwise require both trailing-window counts below their limits and
deny when the last `burst_limit` recorded calls all fall inside the
trailing 60 seconds. -/
def allow_spec_model (s : RateLimiter) (now : ℚ) : Bool :=
  if s.cooldown_active now then false
  else
    let minute_count := (s.request_times.filter (fun t => decide (now - t ≤ 60))).length
    let hour_count := (s.hourly_requests.filter (fun t => decide (now - t ≤ 3600))).length
    let calls := s.hourly_requests
    let last_calls := calls.drop (calls.length - s.config.burst_limit)
    let burst_denied :=
      decide (s.config.burst_limit ≤ calls.length) &&
        last_calls.all (fun t => decide (now - t ≤ 60))
    decide (minute_count < s.config.requests_per_minute) &&
      decide (hour_count < s.config.requests_per_hour) && !burst_denied

/-! ### Lock/sleep traces (`wait_if_needed`, lines 70-91; for C9)

Only the `RateLimiter` owns a lock (`self.lock`); `RequestThrottler` and
`SessionManager` have none.  These traces record, in program order, the
lock acquisitions/releases and `time.sleep` calls each method performs. -/

/-- Lock and sleep events emitted by a method body. -/
inductive LockEv where
  | acq
  | rel
  | sleep
deriving DecidableEq

/-- Trace of `can_make_request`: it wraps its body in `with self.lock`. -/
def can_make_request_trace : List LockEv := [.acq, .rel]

/-- Trace of `wait_if_needed` at a given limiter state and time: first the
unlocked `can_make_request()` call (which acquires and releases the
lock); if that allowed the request, return.  Otherwise re-acquire the
lock, compute the wait, and — still inside the `with self.lock` block —
sleep when the wait is positive.  `_clean_old_entries` ran inside the
first call exactly when the cooldown check was passed. -/
def RateLimiter.wait_if_needed_trace (s : RateLimiter) (now : ℚ) : List LockEv :=
  if s.can_make_request now then can_make_request_trace
  else
    let s1 := if s.cooldown_active now then s else s.clean_old_entries now
    can_make_request_trace ++ [.acq] ++
      (if 0 < s1.calculate_wait_time now then [.sleep] else []) ++ [.rel]

/-- Trace of `RateLimiter.record_request` (a `with self.lock` body, no
sleep). -/
def record_request_trace : List LockEv := [.acq, .rel]

/-- Trace of `RateLimiter.trigger_cooldown` (a `with self.lock` body, no
sleep). -/
def trigger_cooldown_trace : List LockEv := [.acq, .rel]

/-- Trace of `RateLimitingManager.record_request_result`: the limiter's
`record_request`, then the (lock-free) session and throttler updates,
then — when `detected` — `trigger_cooldown`. -/
def record_request_result_trace (detected : Bool) : List LockEv :=
  record_request_trace ++ (if detected then trigger_cooldown_trace else [])

/-- Depths at which `sleep` events occur, threading the current lock
depth. -/
def sleepDepths : ℕ → List LockEv → List ℕ
  | _, [] => []
  | d, .acq :: r => sleepDepths (d + 1) r
  | d, .rel :: r => sleepDepths (d - 1) r
  | d, .sleep :: r => d :: sleepDepths d r

/-- A trace keeps every sleep outside any held lock when each sleep
happens at lock depth 0. -/
def sleeps_outside_lock (tr : List LockEv) : Bool :=
  (sleepDepths 0 tr).all (fun d => d == 0)

/-! ### `RequestThrottler` (`src/utils/rate_limiter.py`, lines 246-292) -/

/-- `RequestThrottler` instance state. -/
structure RequestThrottler where
  base_delay : ℚ
  max_delay : ℚ
  current_delay : ℚ
  success_count : ℕ
  failure_count : ℕ
  last_request_time : ℚ
deriving DecidableEq

/-- A fresh throttler as built by `RequestThrottler.__init__`. -/
def RequestThrottler.mk0 (base_delay max_delay : ℚ) : RequestThrottler :=
  ⟨base_delay, max_delay, base_delay, 0, 0, 0⟩

/-- `after_request(success)`: on success bump the success streak and clear
the failure streak, decaying the delay by 10 % (floored at `base_delay`)
once the streak reaches 5; on failure clear the success streak, bump the
failure streak `fc`, and grow the delay to
`min(max_delay, current_delay * (1.5 + fc * 0.1))`. -/
def RequestThrottler.after_request (s : RequestThrottler) (success : Bool) :
    RequestThrottler :=
  if success then
    let sc := s.success_count + 1
    if 5 ≤ sc then
      { s with success_count := 0, failure_count := 0,
               current_delay := max s.base_delay (s.current_delay * (9/10)) }
    else
      { s with success_count := sc, failure_count := 0 }
  else
    let fc := s.failure_count + 1
    { s with failure_count := fc, success_count := 0,
             current_delay := min s.max_delay (s.current_delay * (3/2 + (fc : ℚ) * (1/10))) }

/-- The throttler state after a whole sequence of `after_request` calls. -/
def RequestThrottler.after_seq (s : RequestThrottler) (l : List Bool) :
    RequestThrottler :=
  l.foldl RequestThrottler.after_request s

/-- Trace of `before_request` at a given throttler state and time: it
sleeps the remainder of `current_delay` with no lock involved
(`RequestThrottler` owns no lock). -/
def RequestThrottler.before_request_trace (s : RequestThrottler) (now : ℚ) :
    List LockEv :=
  if now - s.last_request_time < s.current_delay then [.sleep] else []

/-! ### `SessionManager` (`src/utils/rate_limiter.py`, lines 295-328) -/

/-- `SessionManager` instance state; `session_start` starts as `None`, and
`max_requests_per_session` is drawn by `random.randint(50, 100)` at
construction (modelled as a parameter). -/
structure SessionManager where
  session_duration : ℚ := 1800
  session_start : Option ℚ := none
  requests_in_session : ℕ := 0
  max_requests_per_session : ℕ
deriving DecidableEq

/-- A fresh manager as built by `SessionManager.__init__`, with the
randomized per-session ceiling passed in. -/
def SessionManager.mk0 (draw : ℕ) : SessionManager :=
  { max_requests_per_session := draw }

/-- `should_rotate_session`: no active session never rotates; otherwise
rotate when the session is too old or has seen too many requests. -/
def SessionManager.should_rotate_session (s : SessionManager) (now : ℚ) : Bool :=
  match s.session_start with
  | none => false
  | some st =>
    decide (s.session_duration < now - st) ||
      decide (s.max_requests_per_session ≤ s.requests_in_session)

/-- `start_new_session`: stamp the start time, zero the counter, redraw the
ceiling (`random.randint(50, 100)` modelled by `draw`). -/
def SessionManager.start_new_session (s : SessionManager) (now : ℚ) (draw : ℕ) :
    SessionManager :=
  { s with session_start := some now, requests_in_session := 0,
           max_requests_per_session := draw }

/-- `record_request`: implicitly start a session when none is active, then
count the request. -/
def SessionManager.record_request (s : SessionManager) (now : ℚ) (draw : ℕ) :
    SessionManager :=
  match s.session_start with
  | none =>
    let s := s.start_new_session now draw
    { s with requests_in_session := s.requests_in_session + 1 }
  | some _ => { s with requests_in_session := s.requests_in_session + 1 }

/-! ### `RateLimitingManager` (`src/utils/rate_limiter.py`, lines 384-436) -/

/-- The manager's state: the three policy objects plus the statistics
counters touched by `record_request_result`. -/
structure RateLimitingManager where
  rate_limiter : RateLimiter
  throttler : RequestThrottler
  session_manager : SessionManager
  requests_made : ℕ := 0
  cooldowns_triggered : ℕ := 0
deriving DecidableEq

/-- `record_request_result(success, detected)`: unconditionally record the
request on the limiter, the session manager, and the throttler, bump the
request counter, and — when `detected` — trigger the limiter's cooldown
with the configured default duration. -/
def RateLimitingManager.record_request_result (m : RateLimitingManager)
    (now : ℚ) (success detected : Bool) (draw : ℕ) : RateLimitingManager :=
  let rl := m.rate_limiter.record_request now
  let sm := m.session_manager.record_request now draw
  let th := m.throttler.after_request success
  { m with
    rate_limiter := if detected then rl.trigger_cooldown now none else rl,
    session_manager := sm,
    throttler := th,
    requests_made := m.requests_made + 1,
    cooldowns_triggered := m.cooldowns_triggered + (if detected then 1 else 0) }

/-! ## Theorems -/

/-! ### C1 — admission check of `RateLimiter.can_make_request` -/

/-- C1, counterexample: with the default config (`burst_limit = 3`) and
requests recorded at times 100, 120, 140, checked at time 150, the last
three recorded calls all lie inside the trailing 60 seconds, so the
spec's burst condition denies admission — but the code's
`consecutive_requests` counter is 1 (the calls are more than 10 s apart),
so `can_make_request` allows it.  The claimed equivalence fails. -/
theorem c1_counterexample :
    ((((RateLimiter.mk0 {}).record_request 100).record_request 120).record_request
        140).can_make_request 150 = true ∧
    allow_spec_model
      ((((RateLimiter.mk0 {}).record_request 100).record_request 120).record_request 140)
      150 = false := by
  constructor
  · norm_num [RateLimiter.can_make_request, RateLimiter.cooldown_active,
      RateLimiter.clean_old_entries, RateLimiter.record_request, RateLimiter.mk0,
      List.dropWhile]
  · norm_num [allow_spec_model, RateLimiter.cooldown_active,
      RateLimiter.record_request, RateLimiter.mk0, List.filter, List.all]

/-- C1 (amended): `can_make_request` returns true iff no cooldown deadline
is active, the pruned per-minute count is below `requests_per_minute`,
the pruned per-hour count is below `requests_per_hour`, and the burst
denial does not fire — where burst denial requires the
`consecutive_requests` run counter (calls each recorded within 10 s of
the previous one) to have reached `burst_limit` AND the last request to
be less than 60 s old.  An active cooldown overrides everything else. -/
theorem c1_admission_characterization (s : RateLimiter) (now : ℚ) :
    s.can_make_request now = true ↔
      (s.cooldown_active now = false ∧
        (s.clean_old_entries now).request_times.length < s.config.requests_per_minute ∧
        (s.clean_old_entries now).hourly_requests.length < s.config.requests_per_hour ∧
        ¬(s.config.burst_limit ≤ s.consecutive_requests ∧
            now - s.last_request_time < 60)) := by
  unfold RateLimiter.can_make_request
  rcases hcd : s.cooldown_active now with _ | _
  · simp only [Bool.false_eq_true, if_false, RateLimiter.clean_old_entries]
    split_ifs with h1 h2 h3 <;> simp_all
  · simp [hcd]

/-! ### C2 — bounds of the `exponential_backoff` delay -/

/-- C2, counterexample: with the default parameters (`base_delay = 1`,
`max_delay = 60`, `exponential_base = 2`, jitter on), attempt 6 gives the
capped delay 60, a jitter draw of +15 lies inside the permitted range
`±delay * 0.25`, and the returned delay is 75, which exceeds
`max_delay = 60`.  The claimed upper bound `delay(n) ≤ max_delay`
fails. -/
theorem c2_counterexample :
    |(15 : ℚ)| ≤ min ((1 : ℚ) * 2 ^ 6) 60 * (1/4) ∧
    calculate_delay 1 60 2 true 15 6 = 75 ∧
    ¬(calculate_delay 1 60 2 true 15 6 ≤ 60) := by
  norm_num [calculate_delay, min_def, max_def]

/-- C2 (amended): for every attempt index and every jitter draw `u` inside
the code's range `|u| ≤ min(base * exp_base^n, max_delay) * 0.25`, the
returned delay lies between the 0.1-second minimum and
`max_delay * (1 + j)` with `j = 0.25` — the jitter is applied after the
`max_delay` cap, so the cap can be exceeded by up to 25 %, while the 0.1
floor always holds. -/
theorem c2_backoff_bounds (base_delay max_delay exponential_base u : ℚ)
    (jitter : Bool) (attempt : ℕ)
    (hbase : 0 ≤ base_delay) (hexp : 0 ≤ exponential_base)
    (hmax : 1/10 ≤ max_delay)
    (hu : |u| ≤ min (base_delay * exponential_base ^ attempt) max_delay * (1/4)) :
    1/10 ≤ calculate_delay base_delay max_delay exponential_base jitter u attempt ∧
    calculate_delay base_delay max_delay exponential_base jitter u attempt
      ≤ max_delay * (5/4) := by
  unfold calculate_delay
  have hd0 : 0 ≤ min (base_delay * exponential_base ^ attempt) max_delay :=
    le_min (mul_nonneg hbase (pow_nonneg hexp _)) (by linarith)
  have hdm : min (base_delay * exponential_base ^ attempt) max_delay ≤ max_delay :=
    min_le_right _ _
  have hu' : u ≤ min (base_delay * exponential_base ^ attempt) max_delay * (1/4) :=
    (abs_le.mp hu).2
  constructor
  · exact le_max_right _ _
  · rcases jitter with _ | _
    · simp only [Bool.false_eq_true, if_false]
      exact max_le (by linarith) (by linarith)
    · simp only [if_pos]
      exact max_le (by linarith) (by linarith)

/-- Witness for C2 (amended) at `base_delay = 1`, `max_delay = 60`,
`exponential_base = 2`, draw `u = 0`, attempt 0. -/
theorem c2_backoff_bounds_witness :
    1/10 ≤ calculate_delay 1 60 2 true 0 0 ∧
    calculate_delay 1 60 2 true 0 0 ≤ 60 * (5/4) :=
  c2_backoff_bounds 1 60 2 0 true 0 (by norm_num) (by norm_num) (by norm_num)
    (by norm_num [min_def])

/-! ### C3 — `CircuitBreaker` lifecycle -/

/-- Unfolding lemma: a failing run steps through its first call. -/
lemma CircuitBreaker.fail_run_cons (b : CircuitBreaker) (e : ExcType) (t : ℚ)
    (ts : List ℚ) :
    b.fail_run e (t :: ts) = ((b.call t (.raises e)).2).fail_run e ts := rfl

/-- `_on_failure` stamps the failure time. -/
lemma CircuitBreaker.on_failure_last (b : CircuitBreaker) (t : ℚ) :
    (b.on_failure t).last_failure_time = some t := rfl

/-- `_on_failure` keeps `recovery_timeout`. -/
lemma CircuitBreaker.on_failure_rt (b : CircuitBreaker) (t : ℚ) :
    (b.on_failure t).recovery_timeout = b.recovery_timeout := rfl

/-- `_on_failure` bumps the counter by one. -/
lemma CircuitBreaker.on_failure_count (b : CircuitBreaker) (t : ℚ) :
    (b.on_failure t).failure_count = b.failure_count + 1 := rfl

/-- `_on_failure` opens the circuit exactly at the threshold. -/
lemma CircuitBreaker.on_failure_state (b : CircuitBreaker) (t : ℚ) :
    (b.on_failure t).state =
      if b.failure_threshold ≤ b.failure_count + 1 then .opened else b.state := rfl

/-- A call from a CLOSED breaker whose operation raises a counted
(expected) exception re-raises it and performs `_on_failure`. -/
lemma CircuitBreaker.call_closed_fail (b : CircuitBreaker) (t : ℚ) (e : ExcType)
    (hb : b.state = .closed) (he : e.isSubclass b.expected_exception = true) :
    b.call t (.raises e) = (.raised e, b.on_failure t) := by
  simp [CircuitBreaker.call, hb, he]

/-- Behavior of a run of counted failures starting from a CLOSED breaker
whose counter has room (`failure_count + |ts| ≤ failure_threshold`):
configuration fields are unchanged, the counter advances by one per call,
the failure time is the last call time, and the circuit stays CLOSED
strictly below the threshold and is OPEN as soon as the threshold is
reached. -/
lemma CircuitBreaker.fail_run_spec (e : ExcType) (ts : List ℚ) :
    ∀ b : CircuitBreaker, b.state = .closed →
      e.isSubclass b.expected_exception = true →
      b.failure_count + ts.length ≤ b.failure_threshold →
      (b.fail_run e ts).failure_threshold = b.failure_threshold ∧
      (b.fail_run e ts).recovery_timeout = b.recovery_timeout ∧
      (b.fail_run e ts).expected_exception = b.expected_exception ∧
      (b.fail_run e ts).failure_count = b.failure_count + ts.length ∧
      (∀ tl, ts.getLast? = some tl → (b.fail_run e ts).last_failure_time = some tl) ∧
      (b.failure_count + ts.length < b.failure_threshold →
        (b.fail_run e ts).state = .closed) ∧
      (ts ≠ [] → b.failure_threshold ≤ b.failure_count + ts.length →
        (b.fail_run e ts).state = .opened) := by
  induction ts with
  | nil =>
    intro b hb he _
    simp [CircuitBreaker.fail_run, hb]
  | cons t rest ih =>
    intro b hb he hle
    rw [CircuitBreaker.fail_run_cons, CircuitBreaker.call_closed_fail b t e hb he]
    rcases eq_or_ne rest [] with hrest | hrest
    · subst hrest
      simp only [List.length_cons, List.length_nil] at hle ⊢
      constructor
      · simp [CircuitBreaker.fail_run, CircuitBreaker.on_failure]
      refine ⟨by simp [CircuitBreaker.fail_run, CircuitBreaker.on_failure],
        by simp [CircuitBreaker.fail_run, CircuitBreaker.on_failure],
        by simp [CircuitBreaker.fail_run, CircuitBreaker.on_failure],
        ?_, ?_, ?_⟩
      · intro tl htl
        simp only [List.getLast?_singleton, Option.some_inj] at htl
        subst htl
        simp [CircuitBreaker.fail_run, CircuitBreaker.on_failure]
      · intro hlt
        have : ¬ b.failure_threshold ≤ b.failure_count + 1 := by omega
        simp [CircuitBreaker.fail_run, CircuitBreaker.on_failure, this, hb]
      · intro _ hge
        have : b.failure_threshold ≤ b.failure_count + 1 := by omega
        simp [CircuitBreaker.fail_run, CircuitBreaker.on_failure, this]
    · have hpos : 0 < rest.length := List.length_pos.mpr hrest
      have hnotopen : ¬ b.failure_threshold ≤ b.failure_count + 1 := by
        simp only [List.length_cons] at hle; omega
      have hb' : (b.on_failure t).state = .closed := by
        simp [CircuitBreaker.on_failure, hnotopen, hb]
      have he' : e.isSubclass (b.on_failure t).expected_exception = true := by
        simpa [CircuitBreaker.on_failure] using he
      have hle' : (b.on_failure t).failure_count + rest.length ≤
          (b.on_failure t).failure_threshold := by
        simp only [CircuitBreaker.on_failure, List.length_cons] at hle ⊢
        omega
      obtain ⟨hft, hrt, hexp, hfc, hlast, hclosed, hopen⟩ := ih (b.on_failure t) hb' he' hle'
      have hft0 : (b.on_failure t).failure_threshold = b.failure_threshold := by
        simp [CircuitBreaker.on_failure]
      have hrt0 : (b.on_failure t).recovery_timeout = b.recovery_timeout := by
        simp [CircuitBreaker.on_failure]
      have hexp0 : (b.on_failure t).expected_exception = b.expected_exception := by
        simp [CircuitBreaker.on_failure]
      have hfc0 : (b.on_failure t).failure_count = b.failure_count + 1 := by
        simp [CircuitBreaker.on_failure]
      obtain ⟨r, rs, rfl⟩ := List.exists_cons_of_ne_nil hrest
      refine ⟨by rw [hft, hft0], by rw [hrt, hrt0], by rw [hexp, hexp0], ?_, ?_, ?_, ?_⟩
      · rw [hfc, hfc0]; simp; omega
      · intro tl htl
        rw [List.getLast?_cons_cons] at htl
        exact hlast tl htl
      · intro hlt
        refine hclosed ?_
        rw [hfc0, hft0]
        simp only [List.length_cons] at hlt ⊢
        omega
      · intro _ hge
        refine hopen (by simp) ?_
        rw [hfc0, hft0]
        simp only [List.length_cons] at hge ⊢
        omega

/-- C3: the `CircuitBreaker` state machine.  From a fresh breaker, after
exactly `failure_threshold` consecutive failures of the configured
exception kind (at call times `ts`, the last being `tl`): (a) the circuit
is OPEN with the counter at the threshold; (b) any call made before
`recovery_timeout` has elapsed since the last failure is rejected with
the circuit-open error, without invoking the wrapped operation (the
result is the same for every `op`) and without changing state; (c) once
`recovery_timeout` has elapsed, the next call is a permitted trial — a
succeeding trial closes the circuit and resets the counter; (d) a
failing trial re-raises, returns the circuit to OPEN, restarts the timer
at the trial time, and the immediately following call within the new
timeout window is rejected again (so exactly one trial is permitted per
elapsed timeout).  The Open-to-HalfOpen transition happens inside the
call itself (`should_attempt_reset` is consulted lazily at call time). -/
theorem c3_circuit_breaker_lifecycle
    (th : ℕ) (rt : ℚ) (exc e : ExcType) (ts : List ℚ) (tl : ℚ) (b : CircuitBreaker)
    (_hth : 1 ≤ th) (hsub : e.isSubclass exc = true)
    (hlen : ts.length = th) (hlast : ts.getLast? = some tl)
    (hb : b = (CircuitBreaker.mk0 th rt exc).fail_run e ts) :
    (b.state = .opened ∧ b.failure_count = th ∧ b.last_failure_time = some tl) ∧
    (∀ t op, t - tl < rt → b.call t op = (.rejected circuit_open_error, b)) ∧
    (∀ t, rt ≤ t - tl →
      b.call t .succeeds = (.returned, { b with state := .closed, failure_count := 0 })) ∧
    (∀ t t' op', rt ≤ t - tl → t' - t < rt →
      (b.call t (.raises e)).1 = .raised e ∧
      (b.call t (.raises e)).2.state = .opened ∧
      (b.call t (.raises e)).2.last_failure_time = some t ∧
      ((b.call t (.raises e)).2.call t' op').1 = .rejected circuit_open_error) := by
  have hne : ts ≠ [] := by
    intro h; rw [h] at hlast; simp at hlast
  obtain ⟨hft, hrt2, hexp, hfc, hlastf, _, hopen⟩ :=
    CircuitBreaker.fail_run_spec e ts (CircuitBreaker.mk0 th rt exc) rfl hsub
      (by simp [CircuitBreaker.mk0, hlen])
  rw [← hb] at hft hrt2 hexp hfc hlastf hopen
  simp only [CircuitBreaker.mk0] at hft hrt2 hexp hfc
  have hstate : b.state = .opened := hopen hne (by simp [CircuitBreaker.mk0, hlen])
  have hlft : b.last_failure_time = some tl := hlastf tl hlast
  have hfcth : b.failure_count = th := by rw [hfc, hlen]; simp
  refine ⟨⟨hstate, hfcth, hlft⟩, ?_, ?_, ?_⟩
  · intro t op hlt
    have hreset : b.should_attempt_reset t = false := by
      simp only [CircuitBreaker.should_attempt_reset, hlft, hrt2]
      simpa using not_le.mpr hlt
    simp [CircuitBreaker.call, hstate, hreset]
  · intro t hge
    have hreset : b.should_attempt_reset t = true := by
      simp only [CircuitBreaker.should_attempt_reset, hlft, hrt2]
      simpa using hge
    simp [CircuitBreaker.call, hstate, hreset, CircuitBreaker.on_success]
  · intro t t' op' hge hlt
    have hreset : b.should_attempt_reset t = true := by
      simp only [CircuitBreaker.should_attempt_reset, hlft, hrt2]
      simpa using hge
    have hsub' : e.isSubclass b.expected_exception = true := by rw [hexp]; exact hsub
    have hcall : b.call t (.raises e) =
        (.raised e, ({ b with state := .half_open } : CircuitBreaker).on_failure t) := by
      simp [CircuitBreaker.call, hstate, hreset, hsub']
    have hthle : b.failure_threshold ≤ b.failure_count + 1 := by
      rw [hft, hfcth]; omega
    rw [hcall]
    refine ⟨rfl, ?_, ?_, ?_⟩
    · rw [CircuitBreaker.on_failure_state]
      simp [hthle]
    · exact CircuitBreaker.on_failure_last _ _
    · have hstate2 : (({ b with state := .half_open } : CircuitBreaker).on_failure t).state
          = .opened := by
        rw [CircuitBreaker.on_failure_state]
        simp [hthle]
      have hreset2 : (({ b with state := .half_open } : CircuitBreaker).on_failure t
          ).should_attempt_reset t' = false := by
        rw [CircuitBreaker.should_attempt_reset]
        rw [CircuitBreaker.on_failure_last, CircuitBreaker.on_failure_rt]
        have : ({ b with state := .half_open } : CircuitBreaker).recovery_timeout = rt := hrt2
        rw [this]
        simpa using not_le.mpr hlt
      simp [CircuitBreaker.call, hstate2, hreset2]

/-- Witness for C3 at `failure_threshold = 2`, `recovery_timeout = 60`,
failures at times 0 and 10: the circuit is open, a call at time 20 is
rejected, and a succeeding trial at time 70 closes the circuit. -/
theorem c3_circuit_breaker_lifecycle_witness :
    (((CircuitBreaker.mk0 2 60 .LinkedInScraperError).fail_run .NetworkError
        [0, 10]).state = .opened) ∧
    ((((CircuitBreaker.mk0 2 60 .LinkedInScraperError).fail_run .NetworkError
        [0, 10]).call 20 .succeeds).1 = .rejected circuit_open_error) ∧
    ((((CircuitBreaker.mk0 2 60 .LinkedInScraperError).fail_run .NetworkError
        [0, 10]).call 70 .succeeds).2.state = .closed) := by
  have h := c3_circuit_breaker_lifecycle 2 60 .LinkedInScraperError .NetworkError
    [0, 10] 10 ((CircuitBreaker.mk0 2 60 .LinkedInScraperError).fail_run .NetworkError
    [0, 10]) (by norm_num) (by decide) (by simp) (by simp) rfl
  refine ⟨h.1.1, ?_, ?_⟩
  · have hrej := h.2.1 20 .succeeds (by norm_num)
    rw [hrej]
  · have htrial := h.2.2.1 70 (by norm_num)
    rw [htrial]

/-! ### C4 — retry exhaustion with `max_attempts = 3` -/

/-- C4: wrapping an operation that raises a retryable exception on every
attempt with `max_attempts = 3` invokes it exactly 3 times (sleeping the
backoff delay after the first two), then produces the terminal
retries-exhausted error with `attempts = 3` and `last_error` the
exception of the final (third) attempt — the original failure cause is
preserved. -/
theorem c4_retry_exhaustion (delay_func : ℕ → ℚ) (exc : ℕ → ExcType)
    (h : ∀ n, classifyExc (exc n) = .retryable) :
    retry_run 3 delay_func (fun n => .raises (exc n)) =
      ⟨.exhausted 3 (some (exc 2)), 3, [delay_func 0, delay_func 1]⟩ := by
  simp [retry_run, retry_loop, h 0, h 1, h 2]

/-- Witness for C4: an operation that always raises `NetworkError` (a
default retryable kind), with unit delays. -/
theorem c4_retry_exhaustion_witness :
    retry_run 3 (fun _ => (1 : ℚ)) (fun _ => .raises .NetworkError) =
      ⟨.exhausted 3 (some .NetworkError), 3, [1, 1]⟩ :=
  c4_retry_exhaustion (fun _ => 1) (fun _ => .NetworkError)
    (fun _ => show classifyExc .NetworkError = .retryable by decide)

/-! ### C7 — unclassified exceptions and bounded retries -/

/-- The loop invokes the operation at most once per remaining `range`
iteration. -/
lemma retry_loop_calls_le (max_attempts : ℕ) (delay_func : ℕ → ℚ)
    (op : ℕ → AttemptOutcome) :
    ∀ (remaining attempt : ℕ) (last : Option ExcType),
      (retry_loop max_attempts delay_func op attempt last remaining).calls ≤ remaining := by
  intro remaining
  induction remaining with
  | zero => intro attempt last; simp [retry_loop]
  | succ r ih =>
    intro attempt last
    rcases hop : op attempt with _ | e
    · simp [retry_loop, hop]
    · rcases hc : classifyExc e with _ | _ | _
      · simp [retry_loop, hop, hc]
      · by_cases hfin : attempt = max_attempts - 1
        · subst hfin
          simp [retry_loop, hop, hc]
        · simp only [retry_loop, hop, hc, if_neg hfin]
          have := ih (attempt + 1) (some e)
          omega
      · by_cases hfin : attempt = max_attempts - 1
        · subst hfin
          simp [retry_loop, hop, hc]
        · simp only [retry_loop, hop, hc, if_neg hfin]
          have := ih (attempt + 1) (some e)
          omega

/-- A run in which every attempt raises an unclassified exception consumes
every attempt, sleeping half the policy delay between attempts. -/
lemma retry_loop_other_run (max_attempts : ℕ) (delay_func : ℕ → ℚ) (exc : ℕ → ExcType)
    (h : ∀ n, classifyExc (exc n) = .other) :
    ∀ (remaining attempt : ℕ) (last : Option ExcType),
      attempt + remaining = max_attempts → 1 ≤ remaining →
      retry_loop max_attempts delay_func (fun n => .raises (exc n)) attempt last remaining =
        ⟨.exhausted max_attempts (some (exc (max_attempts - 1))), remaining,
          (List.range' attempt (remaining - 1)).map (fun n => delay_func n * (1/2))⟩ := by
  intro remaining
  induction remaining with
  | zero => intro attempt last _ hge; omega
  | succ r ih =>
    intro attempt last hsum _
    rcases Nat.eq_zero_or_pos r with hr | hr
    · subst hr
      have hfin : attempt = max_attempts - 1 := by omega
      subst hfin
      simp [retry_loop, h (max_attempts - 1), List.range']
    · have hfin : attempt ≠ max_attempts - 1 := by omega
      simp only [retry_loop, h attempt, if_neg hfin]
      rw [ih (attempt + 1) (some (exc attempt)) (by omega) hr]
      have hrange : List.range' attempt r =
          attempt :: List.range' (attempt + 1) (r - 1) := by
        have hr' : r - 1 + 1 = r := by omega
        rw [← hr', List.range'_succ]
        simp
      have hr1 : r + 1 - 1 = r := by omega
      rw [hr1, hrange]
      simp

/-- C7: (a) for every operation, delay function, and `max_attempts`, the
retry wrapper invokes the operation at most `max_attempts` times —
retries are never unbounded, whatever exception kinds are raised; (b) an
exception not matched by `retry_on` or `stop_on` is treated as retryable
with half the policy delay and still consumes an attempt: an operation
raising only unclassified exceptions is invoked exactly `max_attempts`
times, each non-final attempt sleeping `delay_func(attempt) * 0.5`,
before the retries-exhausted error reports the final exception. -/
theorem c7_bounded_retries :
    (∀ (max_attempts : ℕ) (delay_func : ℕ → ℚ) (op : ℕ → AttemptOutcome),
      (retry_run max_attempts delay_func op).calls ≤ max_attempts) ∧
    (∀ (max_attempts : ℕ) (delay_func : ℕ → ℚ) (exc : ℕ → ExcType),
      1 ≤ max_attempts → (∀ n, classifyExc (exc n) = .other) →
      retry_run max_attempts delay_func (fun n => .raises (exc n)) =
        ⟨.exhausted max_attempts (some (exc (max_attempts - 1))), max_attempts,
          (List.range (max_attempts - 1)).map (fun n => delay_func n * (1/2))⟩) := by
  constructor
  · intro max_attempts delay_func op
    exact retry_loop_calls_le max_attempts delay_func op max_attempts 0 none
  · intro max_attempts delay_func exc hge h
    rw [retry_run, retry_loop_other_run max_attempts delay_func exc h max_attempts 0 none
      (by omega) hge]
    rw [List.range_eq_range']

/-- Witness for C7: an operation always raising the unclassified
`OtherException` with `max_attempts = 3` is called exactly 3 times and
sleeps half of the unit delay twice; and part (a) instantiated at the
same run. -/
theorem c7_bounded_retries_witness :
    (retry_run 3 (fun _ => (1 : ℚ)) (fun _ => .raises .OtherException)).calls ≤ 3 ∧
    retry_run 3 (fun _ => (1 : ℚ)) (fun _ => .raises .OtherException) =
      ⟨.exhausted 3 (some .OtherException), 3, [1 * (1/2), 1 * (1/2)]⟩ := by
  refine ⟨c7_bounded_retries.1 3 (fun _ => 1) (fun _ => .raises .OtherException), ?_⟩
  have h := c7_bounded_retries.2 3 (fun _ => 1) (fun _ => .OtherException)
    (by norm_num) (fun _ => show classifyExc .OtherException = .other by decide)
  rw [h]
  rfl

/-! ### C5 — adaptive throttler invariant -/

/-- One `after_request` step keeps `base_delay`/`max_delay` and preserves
`base_delay ≤ current_delay ≤ max_delay`. -/
lemma RequestThrottler.after_request_bounds (s : RequestThrottler) (x : Bool)
    (hb0 : 0 ≤ s.base_delay) (h1 : s.base_delay ≤ s.current_delay)
    (h2 : s.current_delay ≤ s.max_delay) :
    (s.after_request x).base_delay = s.base_delay ∧
    (s.after_request x).max_delay = s.max_delay ∧
    s.base_delay ≤ (s.after_request x).current_delay ∧
    (s.after_request x).current_delay ≤ s.max_delay := by
  have hcur0 : 0 ≤ s.current_delay := hb0.trans h1
  rcases x with _ | _
  · -- failure: the delay grows by a factor of at least 3/2, capped at max_delay
    have hfc : (0 : ℚ) ≤ ((s.failure_count + 1 : ℕ) : ℚ) := Nat.cast_nonneg _
    have hk : (1 : ℚ) ≤ 3/2 + ((s.failure_count + 1 : ℕ) : ℚ) * (1/10) := by linarith
    have hgrow : s.current_delay ≤
        s.current_delay * (3/2 + ((s.failure_count + 1 : ℕ) : ℚ) * (1/10)) :=
      le_mul_of_one_le_right hcur0 hk
    refine ⟨rfl, rfl, ?_, ?_⟩
    · show s.base_delay ≤ min s.max_delay _
      exact le_min (h1.trans h2) (by linarith)
    · exact min_le_left _ _
  · -- success: possible 10% decay, floored at base_delay
    by_cases h5 : 5 ≤ s.success_count + 1
    · have hdec : s.current_delay * (9/10) ≤ s.current_delay :=
        mul_le_of_le_one_right hcur0 (by norm_num)
      simp only [RequestThrottler.after_request, if_pos rfl, if_pos h5]
      refine ⟨rfl, rfl, le_max_left _ _, max_le (h1.trans h2) (by linarith)⟩
    · simp only [RequestThrottler.after_request, if_pos rfl, if_neg h5]
      exact ⟨rfl, rfl, h1, h2⟩

/-- The invariant extends over any sequence of `after_request` calls. -/
lemma RequestThrottler.after_seq_bounds (l : List Bool) :
    ∀ s : RequestThrottler, 0 ≤ s.base_delay → s.base_delay ≤ s.current_delay →
      s.current_delay ≤ s.max_delay →
      (s.after_seq l).base_delay = s.base_delay ∧
      (s.after_seq l).max_delay = s.max_delay ∧
      s.base_delay ≤ (s.after_seq l).current_delay ∧
      (s.after_seq l).current_delay ≤ s.max_delay := by
  induction l with
  | nil => intro s _ h1 h2; exact ⟨rfl, rfl, h1, h2⟩
  | cons x xs ih =>
    intro s h0 h1 h2
    obtain ⟨e1, e2, e3, e4⟩ := RequestThrottler.after_request_bounds s x h0 h1 h2
    have step : s.after_seq (x :: xs) = (s.after_request x).after_seq xs := rfl
    obtain ⟨f1, f2, f3, f4⟩ := ih (s.after_request x) (e1 ▸ h0) (e1 ▸ e3) (e2 ▸ e4)
    rw [step]
    exact ⟨f1.trans e1, f2.trans e2, e1 ▸ f3, e2 ▸ f4⟩

/-- C5: starting from `current_delay = base_delay`, after every sequence of
`after_request(success)` outcomes the invariant
`base_delay ≤ current_delay ≤ max_delay` holds (given
`0 ≤ base_delay ≤ max_delay`); moreover each failure sets the delay to
`min(max_delay, current_delay * (1.5 + 0.1 * new_failure_streak))` and
clears the success streak, and the 5th consecutive success decays the
delay by 10 % floored at `base_delay`, clearing the streak. -/
theorem c5_throttler_invariant (base_delay max_delay : ℚ) (l : List Bool)
    (h0 : 0 ≤ base_delay) (h1 : base_delay ≤ max_delay) :
    (base_delay ≤ ((RequestThrottler.mk0 base_delay max_delay).after_seq l).current_delay ∧
      ((RequestThrottler.mk0 base_delay max_delay).after_seq l).current_delay ≤ max_delay) ∧
    (∀ s : RequestThrottler,
      s.after_request false =
        { s with failure_count := s.failure_count + 1, success_count := 0,
                 current_delay := min s.max_delay
                   (s.current_delay * (3/2 + ((s.failure_count + 1 : ℕ) : ℚ) * (1/10))) }) ∧
    (∀ s : RequestThrottler, s.success_count = 4 →
      s.after_request true =
        { s with success_count := 0, failure_count := 0,
                 current_delay := max s.base_delay (s.current_delay * (9/10)) }) := by
  refine ⟨?_, fun s => rfl, fun s h => ?_⟩
  · obtain ⟨_, _, h3, h4⟩ := RequestThrottler.after_seq_bounds l
      (RequestThrottler.mk0 base_delay max_delay) h0 le_rfl h1
    exact ⟨h3, h4⟩
  · simp [RequestThrottler.after_request, h]

/-- Witness for C5 at `base_delay = 1`, `max_delay = 30`, with 5 failures
followed by 5 successes (the spec's scenario). -/
theorem c5_throttler_invariant_witness :
    1 ≤ ((RequestThrottler.mk0 1 30).after_seq
        [false, false, false, false, false, true, true, true, true, true]).current_delay ∧
    ((RequestThrottler.mk0 1 30).after_seq
        [false, false, false, false, false, true, true, true, true, true]).current_delay
      ≤ 30 :=
  (c5_throttler_invariant 1 30
    [false, false, false, false, false, true, true, true, true, true]
    (by norm_num) (by norm_num)).1

/-! ### C6 — the circuit-open rejection error kind -/

/-- C6, counterexample: under `with_circuit_breaker` (whose
`expected_exception` is `LinkedInScraperError`), a breaker with
`failure_threshold = 1` opened by a `NetworkError` failure at time 0
rejects the call at time 30 with an error of kind
`LinkedInScraperError` — and the wrapped operation itself can raise
exactly that kind (the same breaker, while closed, re-raises an
operation failure of kind `LinkedInScraperError`).  So the rejection is
not of a kind distinct from every exception the operation can raise. -/
theorem c6_counterexample :
    ((((CircuitBreaker.mk0 1 60 with_circuit_breaker_expected).call 0
        (.raises .NetworkError)).2).call 30 (.raises .NetworkError)).1
      = .rejected .LinkedInScraperError ∧
    ((CircuitBreaker.mk0 1 60 with_circuit_breaker_expected).call 0
        (.raises .LinkedInScraperError)).1 = .raised .LinkedInScraperError := by
  constructor
  · norm_num [CircuitBreaker.mk0, CircuitBreaker.call, CircuitBreaker.should_attempt_reset,
      CircuitBreaker.on_failure, with_circuit_breaker_expected, circuit_open_error,
      (show ExcType.isSubclass .NetworkError .LinkedInScraperError = true by decide)]
  · norm_num [CircuitBreaker.mk0, CircuitBreaker.call, with_circuit_breaker_expected,
      (show ExcType.isSubclass .LinkedInScraperError .LinkedInScraperError = true by decide)]

/-- C6 (amended): every call rejected while the circuit is Open raises an
error of kind `LinkedInScraperError` — the base class of the scraper's
exception hierarchy and precisely the `expected_exception` kind that
`with_circuit_breaker` configures for the wrapped operation's own
counted failures — so a circuit-open rejection is not distinguishable by
type from an operation failure of that kind. -/
theorem c6_rejection_kind (b : CircuitBreaker) (now : ℚ) (op : AttemptOutcome)
    (hstate : b.state = .opened) (hreset : b.should_attempt_reset now = false) :
    (b.call now op).1 = .rejected circuit_open_error ∧
    circuit_open_error.isSubclass with_circuit_breaker_expected = true := by
  refine ⟨?_, by decide⟩
  simp [CircuitBreaker.call, hstate, hreset]

/-- Witness for C6 (amended) at a concrete OPEN breaker. -/
theorem c6_rejection_kind_witness :
    ((⟨1, 60, .LinkedInScraperError, 1, some 0, .opened⟩ : CircuitBreaker).call 30
        .succeeds).1 = .rejected circuit_open_error ∧
    circuit_open_error.isSubclass with_circuit_breaker_expected = true :=
  c6_rejection_kind ⟨1, 60, .LinkedInScraperError, 1, some 0, .opened⟩ 30 .succeeds rfl
    (by norm_num [CircuitBreaker.should_attempt_reset])

/-! ### C8 — `record_request_result` updates and forced cooldown -/

/-- C8: every `record_request_result(success, detected)` call
unconditionally updates the throttler (`after_request`), the session
manager (`record_request`), and the limiter (both window deques get the
timestamp appended and the request counter advances); and whenever
`detected` is true the limiter's cooldown deadline is set to
`now + cooldown_period`, so that for every instant before that deadline
the admission check returns false, regardless of the window-based
counts. -/
theorem c8_record_outcome (m m' : RateLimitingManager) (now : ℚ)
    (success detected : Bool) (draw : ℕ)
    (hm : m' = m.record_request_result now success detected draw) :
    m'.throttler = m.throttler.after_request success ∧
    m'.session_manager = m.session_manager.record_request now draw ∧
    m'.rate_limiter.request_times = m.rate_limiter.request_times ++ [now] ∧
    m'.rate_limiter.hourly_requests = m.rate_limiter.hourly_requests ++ [now] ∧
    m'.requests_made = m.requests_made + 1 ∧
    (detected = true →
      m'.rate_limiter.cooldown_until =
        some (now + m.rate_limiter.config.cooldown_period) ∧
      ∀ t : ℚ, t < now + m.rate_limiter.config.cooldown_period →
        m'.rate_limiter.can_make_request t = false) := by
  subst hm
  rcases detected with _ | _
  · refine ⟨rfl, rfl, rfl, rfl, rfl, ?_⟩
    intro h
    exact absurd h (by simp)
  · refine ⟨rfl, rfl, rfl, rfl, rfl, fun _ => ⟨rfl, fun t ht => ?_⟩⟩
    have hact : ((m.rate_limiter.record_request now).trigger_cooldown now
        none).cooldown_active t = true := by
      simp only [RateLimiter.cooldown_active, RateLimiter.trigger_cooldown,
        RateLimiter.record_request, Option.getD]
      simpa using ht
    have hrl : (m.record_request_result now success true draw).rate_limiter =
        (m.rate_limiter.record_request now).trigger_cooldown now none := rfl
    rw [hrl, RateLimiter.can_make_request, hact]
    simp

/-- Witness for C8: a fresh manager sees a detected request at time 0; at
time 100 (inside the default 300-second cooldown) admission is denied. -/
theorem c8_record_outcome_witness :
    (({ rate_limiter := RateLimiter.mk0 {}, throttler := RequestThrottler.mk0 1 30,
        session_manager := SessionManager.mk0 70 } :
        RateLimitingManager).record_request_result 0 false true
        55).rate_limiter.can_make_request 100 = false := by
  have h := c8_record_outcome
    { rate_limiter := RateLimiter.mk0 {}, throttler := RequestThrottler.mk0 1 30,
      session_manager := SessionManager.mk0 70 }
    (({ rate_limiter := RateLimiter.mk0 {}, throttler := RequestThrottler.mk0 1 30,
        session_manager := SessionManager.mk0 70 } :
        RateLimitingManager).record_request_result 0 false true 55)
    0 false true 55 rfl
  exact (h.2.2.2.2.2 rfl).2 100 (by norm_num [RateLimiter.mk0])

/-! ### C9 — sleeps and held locks in `prepare` / `record_outcome` -/

/-- C9, counterexample: at a limiter put into cooldown at time 0 and
queried at time 0, `wait_if_needed` performs its `time.sleep` inside the
`with self.lock:` block (the trace sleeps at lock depth 1), so the claim
that no sleep ever occurs under a held lock is false. -/
theorem c9_counterexample :
    sleeps_outside_lock
      (((RateLimiter.mk0 {}).trigger_cooldown 0 none).wait_if_needed_trace 0) = false := by
  norm_num [RateLimiter.mk0, RateLimiter.trigger_cooldown, RateLimiter.wait_if_needed_trace,
    RateLimiter.can_make_request, RateLimiter.cooldown_active,
    RateLimiter.calculate_wait_time, RateLimiter.clean_old_entries,
    can_make_request_trace, sleeps_outside_lock, sleepDepths, List.all]

/-- C9 (amended): in `prepare()`'s limiter step, whenever the admission
check denies and the computed wait is positive, the `wait_if_needed`
sleep is performed while the limiter's lock is held (the trace's only
sleep is at lock depth 1 — concurrent callers of the limiter are blocked
for the whole wait); the throttler's `before_request` sleep happens
outside any lock (`RequestThrottler` owns none), and
`record_request_result` performs no sleep at all. -/
theorem c9_sleep_lock_profile (s : RateLimiter) (now : ℚ)
    (hdeny : s.can_make_request now = false)
    (hwait : 0 < (if s.cooldown_active now then s
        else s.clean_old_entries now).calculate_wait_time now) :
    sleepDepths 0 (s.wait_if_needed_trace now) = [1] ∧
    (∀ (th : RequestThrottler) (n : ℚ),
      sleeps_outside_lock (th.before_request_trace n) = true) ∧
    (∀ d : Bool, sleeps_outside_lock (record_request_result_trace d) = true) := by
  refine ⟨?_, ?_, ?_⟩
  · rw [RateLimiter.wait_if_needed_trace]
    rw [hdeny]
    simp only [Bool.false_eq_true, if_false, if_pos hwait, can_make_request_trace]
    rfl
  · intro th n
    rw [RequestThrottler.before_request_trace]
    by_cases hb : n - th.last_request_time < th.current_delay
    · rw [if_pos hb]; rfl
    · rw [if_neg hb]; rfl
  · intro d
    rcases d with _ | _ <;> rfl

/-- Witness for C9 (amended) at the cooldown state of the
counterexample. -/
theorem c9_sleep_lock_profile_witness :
    sleepDepths 0
      (((RateLimiter.mk0 {}).trigger_cooldown 0 none).wait_if_needed_trace 0) = [1] := by
  have h := c9_sleep_lock_profile ((RateLimiter.mk0 {}).trigger_cooldown 0 none) 0
    (by norm_num [RateLimiter.mk0, RateLimiter.trigger_cooldown,
      RateLimiter.can_make_request, RateLimiter.cooldown_active])
    (by norm_num [RateLimiter.mk0, RateLimiter.trigger_cooldown,
      RateLimiter.cooldown_active, RateLimiter.calculate_wait_time,
      RateLimiter.clean_old_entries])
  exact h.1

/-! ### C10 — sessions start implicitly -/

/-- C10: while no session has been started (`session_start` unset),
`should_rotate_session` returns false regardless of the session duration
and the request counter; and the first `record_request` implicitly
starts a session (stamping the start time and redrawing the per-session
ceiling) before counting the request, leaving the counter at 1. -/
theorem c10_session_start :
    (∀ (s : SessionManager) (now : ℚ), s.session_start = none →
      s.should_rotate_session now = false) ∧
    (∀ (s : SessionManager) (now : ℚ) (draw : ℕ), s.session_start = none →
      s.record_request now draw =
        { s with session_start := some now, requests_in_session := 1,
                 max_requests_per_session := draw }) := by
  constructor
  · intro s now h
    simp [SessionManager.should_rotate_session, h]
  · intro s now draw h
    simp [SessionManager.record_request, SessionManager.start_new_session, h]

/-- Witness for C10 at a fresh `SessionManager`. -/
theorem c10_session_start_witness :
    (SessionManager.mk0 70).should_rotate_session 99999 = false ∧
    (SessionManager.mk0 70).record_request 5 80 =
      { session_duration := 1800, session_start := some 5, requests_in_session := 1,
        max_requests_per_session := 80 } := by
  constructor
  · exact c10_session_start.1 (SessionManager.mk0 70) 99999 rfl
  · have h := c10_session_start.2 (SessionManager.mk0 70) 5 80 rfl
    rw [h]
    rfl
